import Mathlib

/-!
Verification of the OperaExtOptions library (`storage.js` / `options_page.js`):
a `SettingStorage` class wrapping a string-keyed web-storage object with JSON
serialization, and an `OptionsPage` binder that synchronizes form elements
with the storage.

Embedding conventions:

* JavaScript values that can flow through `JSON.stringify`/`JSON.parse` are
  modelled by the inductive type `JSVal` (numbers restricted to integers; all
  values in this repository's defaults and in the claims are integer-valued).
* The web-storage backend (`widget.preferences` / `localStorage`) is a partial
  map from key strings to stored payloads.  A payload is either a well-formed
  serialized JSON document, modelled as `StoredData.wf v` carrying the value it
  deserializes to, or a malformed string `StoredData.malformed s` that
  `JSON.parse` rejects.  `JSON.stringify` always produces a well-formed payload
  that parses back to an equal value; `wf` abstracts the concrete character
  representation and records exactly that property of the platform's JSON.
* `undefined` checks (`isDefined`) become `Option` absence on the backend map.
* Methods that can throw (`JSON.parse` on malformed data, calling a
  non-function) return `Except String _`.
* Instance state (`this.prefix`, the `firstRun` closure variable, ...) is
  modelled by explicit state passing: methods that mutate instance fields
  take and return a `SettingStorage`, the others take and return only the
  backend they write.
-/

/-- A JSON value (a JavaScript value that survives `JSON.stringify` /
`JSON.parse`).  Numbers are modelled as integers: every numeric literal in the
repository and in the claims is an integer. -/
inductive JSVal where
  | null : JSVal
  | bool : Bool → JSVal
  | num : Int → JSVal
  | str : String → JSVal
  | arr : List JSVal → JSVal
  | obj : List (String × JSVal) → JSVal

/-- JavaScript truthiness of a `JSVal` (used by `if (...)` tests in the
source): `null`, `false`, `0` and `""` are falsy; arrays and objects are
always truthy. -/
def JSVal.truthy : JSVal → Bool
  | .null => false
  | .bool b => b
  | .num n => n != 0
  | .str s => s != ""
  | .arr _ => true
  | .obj _ => true

/-- A payload held in the web-storage backend: either a well-formed serialized
JSON document (carrying the value it deserializes to) or a malformed string
that `JSON.parse` throws on. -/
inductive StoredData where
  | wf : JSVal → StoredData
  | malformed : String → StoredData

/-- `JSON.stringify` on a JSON-serializable value: always yields a well-formed
payload that parses back to an equal value (platform JSON round‑trip). -/
def jsonStringify (v : JSVal) : StoredData := .wf v

/-- `JSON.parse` on a stored payload: returns the encoded value, or throws a
`SyntaxError` on a malformed payload. -/
def jsonParse : StoredData → Except String JSVal
  | .wf v => .ok v
  | .malformed s => .error ("SyntaxError: unexpected token in JSON: " ++ s)

/-- The web-storage backend: a partial map from key strings to stored
payloads (`none` models an `undefined` slot). -/
def Backend : Type := String → Option StoredData

/-- `storage[key] = payload` on the backend. -/
def Backend.store (b : Backend) (key : String) (d : StoredData) : Backend :=
  fun k => if k = key then some d else b k

/-- The empty backend (no keys defined). -/
def Backend.empty : Backend := fun _ => none

/-- Instance state of a `SettingStorage` object (`storage.js`).  The
`firstRun` closure variable is exposed through a getter only; it is an
ordinary field here, assigned solely by the constructor. -/
structure SettingStorage where
  defaults : List (String × JSVal)
  /-- models `this.prefix` (`prefix` is reserved in Lean) -/
  pre : String
  initSetting : String
  globalInit : Bool
  firstRun : Bool

/-- The `options` argument of the `SettingStorage` constructor.  Each field is
`none` when the corresponding property is `undefined` (the `isDefined`
guards in the source).  The `storage` option is the injected backend, which
the embedding passes separately, and `useAccessors` only controls the
creation of convenience accessor properties delegating to `get`/`set`. -/
structure SSOptions where
  /-- the `prefix` option -/
  pre : Option String := none
  initSetting : Option String := none
  globalInit : Option Bool := none

/-- `SettingStorage.prototype.get`: reads `storage[prefix + name]`; `null`
when the slot is `undefined`, otherwise `JSON.parse` of the payload (which
throws on malformed data). -/
def SettingStorage.get (s : SettingStorage) (b : Backend) (name : String) :
    Except String JSVal :=
  match b (s.pre ++ name) with
  | none => .ok .null
  | some data => jsonParse data

/-- `SettingStorage.prototype.set`: `storage[prefix + name] =
JSON.stringify(value)`. -/
def SettingStorage.set (s : SettingStorage) (b : Backend) (name : String)
    (value : JSVal) : Backend :=
  b.store (s.pre ++ name) (jsonStringify value)

/-- Private `getInit` of `storage.js`: reads the init flag, temporarily
clearing the prefix when `globalInit` is set.  Returns the flag value and the
(net unchanged) instance. -/
def SettingStorage.getInit (s : SettingStorage) (b : Backend) :
    Except String (JSVal × SettingStorage) :=
  if s.globalInit then
    let temp := s.pre
    let s1 := { s with pre := "" }
    match s1.get b s1.initSetting with
    | .error e => .error e
    | .ok v => .ok (v, { s1 with pre := temp })
  else
    match s.get b s.initSetting with
    | .error e => .error e
    | .ok v => .ok (v, s)

/-- Private `setInit` of `storage.js`: writes the init flag, temporarily
clearing the prefix when `globalInit` is set. -/
def SettingStorage.setInit (s : SettingStorage) (b : Backend) (value : JSVal) :
    SettingStorage × Backend :=
  if s.globalInit then
    let temp := s.pre
    let s1 := { s with pre := "" }
    let b1 := s1.set b s1.initSetting value
    ({ s1 with pre := temp }, b1)
  else
    (s, s.set b s.initSetting value)

/-- The `SettingStorage` constructor: initializes the fields, applies the
defined options, then sets `firstRun` to true when the init flag read from the
backend is falsy.  Nothing is written during construction.  Throws when the
init-flag payload is malformed (the read goes through `get`). -/
def SettingStorage.construct (defaults : List (String × JSVal))
    (opts : SSOptions) (b : Backend) : Except String SettingStorage :=
  let s0 : SettingStorage :=
    { defaults := defaults
      pre := ""
      initSetting := "__initialized"
      globalInit := false
      firstRun := false }
  let s1 := match opts.pre with
    | some p => { s0 with pre := p }
    | none => s0
  let s2 := match opts.initSetting with
    | some i => { s1 with initSetting := i }
    | none => s1
  let s3 := match opts.globalInit with
    | some g => { s2 with globalInit := g }
    | none => s2
  match s3.getInit b with
  | .error e => .error e
  | .ok (v, s4) => .ok (if v.truthy then s4 else { s4 with firstRun := true })

/-- `SettingStorage.prototype.reset`: scans `defaults` in order for the first
pair named `name` and sets the setting to its default; sets it to `null` when
no declared default matches. -/
def SettingStorage.reset (s : SettingStorage) (b : Backend) (name : String) :
    Backend :=
  match s.defaults.find? (fun p => p.1 == name) with
  | some p => s.set b name p.2
  | none => s.set b name .null

/-- `SettingStorage.prototype.resetAll`: sets every declared default, in
declaration order. -/
def SettingStorage.resetAll (s : SettingStorage) (b : Backend) : Backend :=
  s.defaults.foldl (fun b p => s.set b p.1 p.2) b

/-- Loop body of `fillDefaults`, by recursion on the remaining defaults:
for each pair whose backend slot is `undefined`, set it to its default. -/
def fillDefaultsLoop (s : SettingStorage) :
    List (String × JSVal) → Backend → Backend
  | [], b => b
  | p :: rest, b =>
      fillDefaultsLoop s rest
        (if (b (s.pre ++ p.1)).isSome then b else s.set b p.1 p.2)

/-- `SettingStorage.prototype.fillDefaults`: finds any `undefined` settings
among the declared defaults and fills them with their default values.
Presence of the key, not truthiness of its value, is what is tested. -/
def SettingStorage.fillDefaults (s : SettingStorage) (b : Backend) : Backend :=
  fillDefaultsLoop s s.defaults b

/-- `SettingStorage.prototype.init`: `fillDefaults()`, then if `firstRun`,
write the init flag (`true`). -/
def SettingStorage.init (s : SettingStorage) (b : Backend) :
    SettingStorage × Backend :=
  let b1 := s.fillDefaults b
  if s.firstRun then s.setInit b1 (.bool true) else (s, b1)

/-- `SettingStorage.prototype.getAll`: an object mapping every declared
setting name to its current value (insertion order = declaration order);
rethrows any `get` failure. -/
def SettingStorage.getAll (s : SettingStorage) (b : Backend) :
    Except String (List (String × JSVal)) :=
  s.defaults.mapM (fun p => do pure (p.1, ← s.get b p.1))

/-- `SettingStorage.prototype.setAll`: calls `set` for every key-value pair
of the data object (iteration order = insertion order of the object). -/
def SettingStorage.setAll (s : SettingStorage) (b : Backend)
    (data : List (String × JSVal)) : Backend :=
  data.foldl (fun b p => s.set b p.1 p.2) b

/-- A JavaScript number as seen by the numeric element machinery
(`valueAsNumber`, `parseFloat`): either NaN or an integer.  All numeric data
in the repository and in the claims is integer-valued, so the fractional part
of JS doubles is not modelled. -/
inductive JSNum where
  | nan : JSNum
  | int : Int → JSNum
deriving DecidableEq

/-- JS `<` on numbers: comparisons involving NaN are false. -/
def JSNum.ltNum : JSNum → JSNum → Bool
  | .int n, .int m => decide (n < m)
  | _, _ => false

/-- JS `>` on numbers: comparisons involving NaN are false. -/
def JSNum.gtNum : JSNum → JSNum → Bool
  | .int n, .int m => decide (n > m)
  | _, _ => false

/-- `isNaN`. -/
def JSNum.isNaN : JSNum → Bool
  | .nan => true
  | .int _ => false

/-- Truthiness of a JS number: NaN and 0 are falsy. -/
def JSNum.truthy : JSNum → Bool
  | .nan => false
  | .int n => n != 0

mutual
/-- JS `String(v)` conversion, as used when a value is assigned to a DOM
`value` property or compared against a string.  Arrays stringify via
`Array.prototype.join(",")`, plain objects to `"[object Object]"`. -/
def jsToString : JSVal → String
  | .null => "null"
  | .bool b => if b then "true" else "false"
  | .num n => toString n
  | .str s => s
  | .arr xs => String.intercalate "," (jsToStringElems xs)
  | .obj _ => "[object Object]"

/-- Element conversion of `Array.prototype.join`: `null` joins as `""`. -/
def jsToStringElems : List JSVal → List String
  | [] => []
  | .null :: rest => "" :: jsToStringElems rest
  | .bool b :: rest => jsToString (.bool b) :: jsToStringElems rest
  | .num n :: rest => jsToString (.num n) :: jsToStringElems rest
  | .str s :: rest => jsToString (.str s) :: jsToStringElems rest
  | .arr xs :: rest => jsToString (.arr xs) :: jsToStringElems rest
  | .obj fs :: rest => jsToString (.obj fs) :: jsToStringElems rest
end

/-- The natural number denoted by a list of decimal digits. -/
def natOfDigits (l : List Char) : Nat :=
  l.foldl (fun a c => a * 10 + (c.toNat - 48)) 0

/-- Parsing a display string as a number (the HTML number parsing behind
`valueAsNumber`): integer literals — an optional minus sign followed by
decimal digits — parse, anything else is NaN (an input of type number
sanitizes a non-numeric assignment to `""`, whose value is NaN).  Fractional
literals are out of the integer-valued model. -/
def strToNum (s : String) : JSNum :=
  match s.data with
  | [] => .nan
  | '-' :: rest =>
      if rest ≠ [] ∧ rest.all Char.isDigit then .int (-(natOfDigits rest : Nat))
      else .nan
  | l =>
      if l.all Char.isDigit then .int (natOfDigits l) else .nan

/-- Leading/trailing-whitespace trimming, as `ToNumber` applies to a string
operand. -/
def jsTrim (s : String) : String :=
  String.mk (((s.data.dropWhile Char.isWhitespace).reverse.dropWhile
    Char.isWhitespace).reverse)

/-- `ToNumber` on a primitive, as invoked by loose equality: `null` → 0,
booleans → 0/1, a blank string → 0, a numeric string → its value, any other
string → NaN. -/
def primToNumber : JSVal → JSNum
  | .null => .int 0
  | .bool b => .int (if b then 1 else 0)
  | .num n => .int n
  | .str s => if jsTrim s = "" then .int 0 else strToNum (jsTrim s)
  | .arr _ => .nan
  | .obj _ => .nan

/-- Numeric equality with NaN unequal to everything. -/
def JSNum.numEq : JSNum → JSNum → Bool
  | .int a, .int b => a == b
  | _, _ => false

/-- `ToPrimitive` as used by loose equality: arrays and objects convert via
their string conversion, primitives are unchanged. -/
def toPrimitive : JSVal → JSVal
  | .arr xs => .str (jsToString (.arr xs))
  | .obj fs => .str (jsToString (.obj fs))
  | v => v

/-- JS loose equality `x == y` on primitives: `null` equals only
`null`/`undefined`; two strings compare as strings; any other combination
compares numerically after `ToNumber`. -/
def looseEqPrim : JSVal → JSVal → Bool
  | .null, .null => true
  | .null, _ => false
  | _, .null => false
  | .str a, .str b => a == b
  | x, y => JSNum.numEq (primToNumber x) (primToNumber y)

/-- JS loose equality `x == y`.  Both call sites in `options_page.js` compare
a primitive (a number or a string) against a stored value, so the
reference-equality case of two objects never arises; objects are compared
through their primitive conversion. -/
def looseEq (x y : JSVal) : Bool :=
  looseEqPrim (toPrimitive x) (toPrimitive y)

/-- A value reachable through a global-scope name (`window[name]`):
`undefined`, a callable function, or a non-callable value. -/
inductive GlobalRef where
  | undef : GlobalRef
  | fn : (JSVal → JSVal) → GlobalRef
  | val : JSVal → GlobalRef

/-- The global function-name-resolution scope (`window`). -/
def Window : Type := String → GlobalRef

/-- Truthiness of a resolved global reference: `undefined` is falsy,
functions are truthy, other values by their own truthiness. -/
def GlobalRef.truthy : GlobalRef → Bool
  | .undef => false
  | .fn _ => true
  | .val v => v.truthy

/-- `parseFloat` of an attribute string, under the integer-valued model:
integer literals parse to their value, anything else is NaN. -/
def parseFloat (s : String) : JSNum := strToNum s

/-- `String.prototype.toLowerCase`, for the ASCII type keywords the binder
compares against. -/
def toLowerCase (s : String) : String := String.mk (s.data.map Char.toLower)

/-- A form element as the binder sees it: `name` and `type` properties, the
current value as last assigned (the DOM reads it back as a string through
`jsToString`), the `checked` flag, the `min`/`max` attribute strings of a
numeric element (`""` when absent — the reflected IDL attribute, a falsy
string), the `data-loadfunc`/`data-savefunc` attributes, and — for a radio
button — the (value, checked) pairs of the same-named radios in its group,
which `getRadioValue` scans. -/
structure Element where
  name : String
  etype : String
  val : JSVal
  checked : Bool
  min : String
  max : String
  loadfunc : Option String
  savefunc : Option String
  radioGroup : List (String × Bool)

/-- `element.value = v`. -/
def Element.setValue (e : Element) (v : JSVal) : Element := { e with val := v }

/-- `element.valueAsNumber`: the displayed string parsed as a number.  A
number assigned to a numeric input displays as its decimal literal and parses
back to itself (platform round trip, taken definitionally); any other
assigned value is read back through its string conversion. -/
def Element.valueAsNumber (e : Element) : JSNum :=
  match e.val with
  | .num n => .int n
  | .str s => strToNum s
  | v => strToNum (jsToString v)

namespace OptionsPage

/-- The `skip` hash of `options_page.js`: types never bound. -/
def isSkipType (t : String) : Bool :=
  t == "hidden" || t == "submit" || t == "image" || t == "file" ||
    t == "reset" || t == "button"

/-- The `numeric` hash: number and range inputs. -/
def isNumericType (t : String) : Bool :=
  t == "number" || t == "range"

/-- The `checkable` hash: checkbox and radio inputs. -/
def isCheckableType (t : String) : Bool :=
  t == "checkbox" || t == "radio"

/-- The `radio` hash. -/
def isRadioType (t : String) : Bool :=
  t == "radio"

/-- `getRadioValue`: the `value` of the first checked radio in the group, or
`null` when none is checked. -/
def getRadioValue (e : Element) : JSVal :=
  match e.radioGroup.find? (fun p => p.2) with
  | some p => .str p.1
  | none => .null

/-- `getTransformFunction`: reads the `data-loadfunc`/`data-savefunc`
attribute.  `getAttribute` returns `null` (not `undefined`) for an absent
attribute and always a string otherwise, so the `func === undefined` and
`typeof func == 'function'` branches of the source are unreachable: an absent
attribute yields `null`, a present one yields `window[func]`. -/
def getTransformFunction (w : Window) (attr : Option String) : GlobalRef :=
  match attr with
  | none => .val .null
  | some s => w s

/-- `if (filter) value = filter(value)`: a falsy filter (absent attribute, a
name resolving to `undefined` or another falsy value) leaves the value
unchanged; a truthy non-callable throws a `TypeError` when invoked; a
function is applied. -/
def applyFilter (r : GlobalRef) (v : JSVal) : Except String JSVal :=
  if r.truthy then
    match r with
    | .fn g => .ok (g v)
    | _ => .error "TypeError: filter is not a function"
  else .ok v

/-- The running `value` variable of `coerceToLimits`: either a JS number or
the element's `min`/`max` attribute string (the result of the chained
assignment `value = element.value = element.min`). -/
inductive CoerceVal where
  | num : JSNum → CoerceVal
  | attr : String → CoerceVal

/-- Numeric view of the running value, as the `<`, `>` and `isNaN` tests see
it (`ToNumber` of a string operand). -/
def CoerceVal.toNum : CoerceVal → JSNum
  | .num n => n
  | .attr s => primToNumber (.str s)

/-- The running value as the JS value `coerceToLimits` returns.  The NaN case
is unreachable at the return site: the final `isNaN` check replaces NaN by
the number 0. -/
def CoerceVal.toVal : CoerceVal → JSVal
  | .num (.int n) => .num n
  | .num .nan => .num 0
  | .attr s => .str s

/-- `coerceToLimits(element, value)`: starts from the argument when truthy,
else from `element.valueAsNumber` (the `value || element.valueAsNumber`
idiom); clamps below `min` and above `max` — assigning the attribute string
to both `value` and `element.value` — then replaces NaN by 0.  Returns the
final value and the mutated element.  An absent or empty `min`/`max`
attribute (falsy string) disables its bound. -/
def coerceToLimits (e : Element) (arg : Option JSNum) : JSVal × Element :=
  let v0 : JSNum := match arg with
    | some x => if x.truthy then x else e.valueAsNumber
    | none => e.valueAsNumber
  let st : CoerceVal × Element := (.num v0, e)
  let st : CoerceVal × Element :=
    if e.min != "" && st.1.toNum.ltNum (parseFloat e.min) then
      (.attr e.min, st.2.setValue (.str e.min))
    else st
  let st : CoerceVal × Element :=
    if e.max != "" && st.1.toNum.gtNum (parseFloat e.max) then
      (.attr e.max, st.2.setValue (.str e.max))
    else st
  let st : CoerceVal × Element :=
    if st.1.toNum.isNaN then (.num (.int 0), st.2.setValue (.num 0)) else st
  (st.1.toVal, st.2)

/-- `elementChanged`: extracts the element's current value per its category
(radio group value, checked flag, coerced number, or the raw value string),
applies the `data-savefunc` transform if one is declared, and persists the
result through `storage.set` under the element's name. -/
def elementChanged (w : Window) (s : SettingStorage) (b : Backend)
    (e : Element) : Except String (Backend × Element) :=
  let t := toLowerCase e.etype
  let step : JSVal × Element :=
    if isCheckableType t then
      (if isRadioType t then getRadioValue e else .bool e.checked, e)
    else if isNumericType t then
      coerceToLimits e (some e.valueAsNumber)
    else
      (.str (jsToString e.val), e)
  match applyFilter (getTransformFunction w e.savefunc) step.1 with
  | .error err => .error err
  | .ok value => .ok (s.set b e.name value, step.2)

/-- `updateElement`: reads the stored value under the element's name (a hard
error on a malformed payload), applies the `data-loadfunc` transform if one
is declared, then writes it into the element: a radio gets
`checked = (element.value == value)`, another checkable gets
`checked = value` (boolean coercion), any other element gets
`element.value = value`, and a numeric element is then clamped by
`coerceToLimits`; when the clamped value differs (loosely) from the stored
value, `elementChanged` persists it — the same path as a user change
event. -/
def updateElement (w : Window) (s : SettingStorage) (b : Backend)
    (e : Element) : Except String (Backend × Element) :=
  let t := toLowerCase e.etype
  match s.get b e.name with
  | .error err => .error err
  | .ok v0 =>
    match applyFilter (getTransformFunction w e.loadfunc) v0 with
    | .error err => .error err
    | .ok value =>
      if isCheckableType t then
        if isRadioType t then
          .ok (b, { e with checked := looseEq (.str (jsToString e.val)) value })
        else
          .ok (b, { e with checked := value.truthy })
      else
        let e1 := e.setValue value
        if isNumericType t then
          let ce := coerceToLimits e1 none
          if looseEq ce.1 value then .ok (b, ce.2)
          else elementChanged w s b ce.2
        else .ok (b, e1)

end OptionsPage

/-! ## Derived definitions used to state the properties -/

/-- The key at which `getInit`/`setInit` read and write the init flag:
unprefixed when `globalInit` is set, prefixed otherwise. -/
def SettingStorage.flagKey (s : SettingStorage) : String :=
  (if s.globalInit then "" else s.pre) ++ s.initSetting

/-- The init flag, as read at construction, is absent or deserializes to a
falsy value.  (A malformed flag payload makes construction itself throw, so
the `malformed` branch is irrelevant for a constructed instance.) -/
def storedFlagFalsy (b : Backend) (s : SettingStorage) : Bool :=
  match b s.flagKey with
  | none => true
  | some (.wf v) => !v.truthy
  | some (.malformed _) => true

/-- The instance the constructor assembles from its arguments before reading
the init flag (the field-initialization and option-application steps of the
constructor, prior to the `firstRun` computation). -/
def assembleStorage (defaults : List (String × JSVal)) (opts : SSOptions) :
    SettingStorage :=
  let s0 : SettingStorage :=
    { defaults := defaults
      pre := ""
      initSetting := "__initialized"
      globalInit := false
      firstRun := false }
  let s1 := match opts.pre with
    | some p => { s0 with pre := p }
    | none => s0
  let s2 := match opts.initSetting with
    | some i => { s1 with initSetting := i }
    | none => s1
  match opts.globalInit with
  | some g => { s2 with globalInit := g }
  | none => s2

/-- Integer clamping into `[lo, hi]`, the effect of `coerceToLimits` on an
in-model numeric value when `lo ≤ hi`. -/
def clampInt (lo hi n : Int) : Int :=
  if n < lo then lo else if n > hi then hi else n

/-- Restores an element's transform attributes on a binder result — used to
state that a run with falsy-resolving transforms behaves exactly like the
run with no transforms declared, the untouched attributes apart. -/
def restoreTransforms (e : Element) (p : Backend × Element) :
    Backend × Element :=
  (p.1, { p.2 with loadfunc := e.loadfunc, savefunc := e.savefunc })

/-! ## Helper lemmas -/

theorem Backend.store_self (b : Backend) (k : String) (d : StoredData) :
    b.store k d k = some d := by
  simp [Backend.store]

theorem Backend.store_ne (b : Backend) (k : String) (d : StoredData)
    {k' : String} (h : k' ≠ k) : b.store k d k' = b k' := by
  simp [Backend.store, h]

theorem string_append_left_cancel {s a b : String} (h : s ++ a = s ++ b) :
    a = b := by
  have h2 := congrArg String.data h
  simp [String.data_append] at h2
  exact String.ext h2

theorem SettingStorage.get_set_self (s : SettingStorage) (b : Backend)
    (name : String) (v : JSVal) : s.get (s.set b name v) name = .ok v := by
  simp [SettingStorage.get, SettingStorage.set, Backend.store_self, jsonStringify,
    jsonParse]

theorem SettingStorage.set_ne (s : SettingStorage) (b : Backend) (name : String)
    (v : JSVal) {k : String} (h : k ≠ s.pre ++ name) :
    s.set b name v k = b k := by
  simp [SettingStorage.set, Backend.store_ne _ _ _ h]

/-! ## C2 -/

/-- C2: for every JSON-serializable value `v` (including `false`, `0`, `null`
and `""`) and every setting name, `set(name, v)` followed by `get(name)` on
the same `SettingStorage` returns a value equal to `v` — round-trip fidelity,
with no coercion of falsy values to null/absent. -/
theorem set_get_roundtrip (s : SettingStorage) (b : Backend) (name : String)
    (v : JSVal) : s.get (s.set b name v) name = .ok v :=
  s.get_set_self b name v

/-! ## C7 -/

/-- C7: `get(name)` returns `null` whenever the backend has no value at
`prefix+name`; when a value is present but malformed, `get` returns an error
that propagates to the caller (no fallback value, no internal recovery). -/
theorem get_absent_null_malformed_error (s : SettingStorage) (b : Backend)
    (name : String) :
    (b (s.pre ++ name) = none → s.get b name = .ok .null) ∧
    (∀ t, b (s.pre ++ name) = some (.malformed t) →
      s.get b name = .error ("SyntaxError: unexpected token in JSON: " ++ t)) := by
  constructor
  · intro h
    simp [SettingStorage.get, h]
  · intro t h
    simp [SettingStorage.get, h, jsonParse]

/-- Witness for C7 at a concrete backend: an absent key reads as `null`, a
malformed payload errors. -/
theorem get_absent_null_malformed_error_witness :
    SettingStorage.get ⟨[], "", "__initialized", false, true⟩ Backend.empty "x"
      = .ok .null ∧
    SettingStorage.get ⟨[], "", "__initialized", false, true⟩
      (Backend.empty.store "x" (.malformed "\x7b")) "x"
      = .error ("SyntaxError: unexpected token in JSON: " ++ "\x7b") :=
  ⟨(get_absent_null_malformed_error _ Backend.empty "x").1 rfl,
   (get_absent_null_malformed_error _ _ "x").2 "\x7b" rfl⟩

/-! ## C5 -/

/-- C5: `reset(name)` sets the setting to its (first) declared default when
`name` is declared, and to `null` when it has no declared default; an
undeclared setting thus stays readable, with `reset` falling back to
`null`. -/
theorem reset_to_default_or_null (s : SettingStorage) (b : Backend)
    (name : String) :
    (∀ p, s.defaults.find? (fun q => q.1 == name) = some p →
      s.get (s.reset b name) name = .ok p.2) ∧
    (name ∉ s.defaults.map Prod.fst →
      s.get (s.reset b name) name = .ok .null) := by
  constructor
  · intro p h
    simp [SettingStorage.reset, h, SettingStorage.get_set_self]
  · intro h
    have hf : s.defaults.find? (fun q => q.1 == name) = none := by
      rw [List.find?_eq_none]
      intro q hq hbeq
      exact h (List.mem_map.mpr ⟨q, hq, by simpa using hbeq⟩)
    simp [SettingStorage.reset, hf, SettingStorage.get_set_self]

/-- Witness for C5: a declared setting resets to its default, an undeclared
one to `null`. -/
theorem reset_to_default_or_null_witness :
    SettingStorage.get ⟨[("a", .num 7)], "", "__initialized", false, true⟩
      (SettingStorage.reset ⟨[("a", .num 7)], "", "__initialized", false, true⟩
        Backend.empty "a") "a" = .ok (.num 7) ∧
    SettingStorage.get ⟨[("a", .num 7)], "", "__initialized", false, true⟩
      (SettingStorage.reset ⟨[("a", .num 7)], "", "__initialized", false, true⟩
        Backend.empty "b") "b" = .ok .null :=
  ⟨(reset_to_default_or_null _ Backend.empty "a").1 ("a", .num 7) rfl,
   (reset_to_default_or_null _ Backend.empty "b").2 (by decide)⟩

/-! ## C3 -/

theorem SettingStorage.set_self (s : SettingStorage) (b : Backend)
    (name : String) (v : JSVal) :
    s.set b name v (s.pre ++ name) = some (jsonStringify v) := by
  simp [SettingStorage.set, Backend.store_self]

theorem fillDefaultsLoop_preserves (s : SettingStorage) :
    ∀ (l : List (String × JSVal)) (b : Backend) (k : String) (v : StoredData),
      b k = some v → fillDefaultsLoop s l b k = some v := by
  intro l
  induction l with
  | nil => intro b k v h; exact h
  | cons p rest ih =>
    intro b k v h
    simp only [fillDefaultsLoop]
    by_cases hp : (b (s.pre ++ p.1)).isSome
    · rw [if_pos hp]
      exact ih b k v h
    · rw [if_neg hp]
      apply ih
      by_cases hk : k = s.pre ++ p.1
      · subst hk
        rw [h] at hp
        simp at hp
      · rw [SettingStorage.set_ne s b p.1 p.2 hk]
        exact h

theorem fillDefaultsLoop_fills (s : SettingStorage) :
    ∀ (l : List (String × JSVal)) (b : Backend) (p : String × JSVal),
      (l.map Prod.fst).Nodup → p ∈ l → b (s.pre ++ p.1) = none →
      fillDefaultsLoop s l b (s.pre ++ p.1) = some (jsonStringify p.2) := by
  intro l
  induction l with
  | nil => intro b p _ hp _; cases hp
  | cons q rest ih =>
    intro b p hnd hp habs
    simp only [List.map_cons, List.nodup_cons] at hnd
    simp only [fillDefaultsLoop]
    rcases List.mem_cons.mp hp with rfl | hmem
    · rw [if_neg (by rw [habs]; simp)]
      exact fillDefaultsLoop_preserves s rest _ _ _ (s.set_self b p.1 p.2)
    · by_cases hq : (b (s.pre ++ q.1)).isSome
      · rw [if_pos hq]
        exact ih b p hnd.2 hmem habs
      · rw [if_neg hq]
        apply ih _ p hnd.2 hmem
        have hne : s.pre ++ p.1 ≠ s.pre ++ q.1 := by
          intro hcontra
          have hpq : p.1 = q.1 := string_append_left_cancel hcontra
          exact hnd.1 (hpq ▸ List.mem_map_of_mem Prod.fst hmem)
        rw [SettingStorage.set_ne s b q.1 q.2 hne]
        exact habs

/-- C3: `fillDefaults()` writes the declared default only for declared
settings whose backend key is absent; any present key — however falsy the
value it holds — is left unchanged.  Presence of the key, not truthiness of
the value, decides.  (The declared names are distinct, a spec invariant.) -/
theorem fillDefaults_only_absent (s : SettingStorage) (b : Backend)
    (hnd : (s.defaults.map Prod.fst).Nodup) :
    (∀ k v, b k = some v → s.fillDefaults b k = some v) ∧
    (∀ p ∈ s.defaults, b (s.pre ++ p.1) = none →
      s.fillDefaults b (s.pre ++ p.1) = some (jsonStringify p.2)) := by
  constructor
  · intro k v h
    exact fillDefaultsLoop_preserves s s.defaults b k v h
  · intro p hp habs
    exact fillDefaultsLoop_fills s s.defaults b p hnd hp habs

/-- Witness for C3: a key holding serialized `false` is left untouched while
an absent key receives its default. -/
theorem fillDefaults_only_absent_witness :
    SettingStorage.fillDefaults
      ⟨[("a", .num 1), ("b", .bool false)], "", "__initialized", false, true⟩
      (Backend.empty.store "b" (.wf (.bool false))) "b"
      = some (.wf (.bool false)) ∧
    SettingStorage.fillDefaults
      ⟨[("a", .num 1), ("b", .bool false)], "", "__initialized", false, true⟩
      (Backend.empty.store "b" (.wf (.bool false))) "a"
      = some (jsonStringify (.num 1)) :=
  ⟨(fillDefaults_only_absent _ _ (by decide)).1 "b" (.wf (.bool false)) rfl,
   (fillDefaults_only_absent _ _ (by decide)).2 ("a", .num 1)
     (List.mem_cons_self _ _) rfl⟩

/-! ## C6 -/

theorem foldl_set_untouched (s : SettingStorage) :
    ∀ (l : List (String × JSVal)) (b : Backend) (k : String),
      (∀ r ∈ l, k ≠ s.pre ++ r.1) →
      (l.foldl (fun acc q => s.set acc q.1 q.2) b) k = b k := by
  intro l
  induction l with
  | nil => intro b k _; rfl
  | cons q rest ih =>
    intro b k h
    rw [List.foldl_cons, ih _ k (fun r hr => h r (List.mem_cons_of_mem q hr)),
      SettingStorage.set_ne s b q.1 q.2 (h q (List.mem_cons_self q rest))]

theorem foldl_set_lookup (s : SettingStorage) :
    ∀ (l : List (String × JSVal)) (b : Backend) (p : String × JSVal),
      (l.map Prod.fst).Nodup → p ∈ l →
      (l.foldl (fun acc q => s.set acc q.1 q.2) b) (s.pre ++ p.1)
        = some (jsonStringify p.2) := by
  intro l
  induction l with
  | nil => intro b p _ hp; cases hp
  | cons q rest ih =>
    intro b p hnd hp
    simp only [List.map_cons, List.nodup_cons] at hnd
    rw [List.foldl_cons]
    rcases List.mem_cons.mp hp with rfl | hmem
    · rw [foldl_set_untouched s rest _ _ ?hne]
      · exact s.set_self b p.1 p.2
      case hne =>
        intro r hr hcontra
        exact hnd.1 (string_append_left_cancel hcontra ▸
          List.mem_map_of_mem Prod.fst hr)
    · exact ih _ p hnd.2 hmem

theorem mapM_ok_of_forall {α β : Type} (f : α → Except String β) (g : α → β) :
    ∀ l : List α, (∀ a ∈ l, f a = .ok (g a)) → l.mapM f = .ok (l.map g) := by
  intro l
  induction l with
  | nil => intro _; rfl
  | cons a t ih =>
    intro h
    rw [List.mapM_cons, h a (List.mem_cons_self a t),
      ih (fun x hx => h x (List.mem_cons_of_mem a hx))]
    rfl

/-- C6: after `resetAll()`, `getAll()` returns exactly the declared
(name, default) pairs, in declaration order, whatever the prior state of the
backend.  (The declared names are distinct, a spec invariant.) -/
theorem resetAll_getAll_defaults (s : SettingStorage) (b : Backend)
    (hnd : (s.defaults.map Prod.fst).Nodup) :
    s.getAll (s.resetAll b) = .ok s.defaults := by
  unfold SettingStorage.getAll
  have h := mapM_ok_of_forall
    (fun p => do pure (p.1, ← s.get (s.resetAll b) p.1)) id s.defaults ?_
  · rw [h, List.map_id]
  · intro p hp
    have hv : s.get (s.resetAll b) p.1 = .ok p.2 := by
      unfold SettingStorage.get SettingStorage.resetAll
      rw [foldl_set_lookup s s.defaults b p hnd hp]
      rfl
    simp [hv]

/-- Witness for C6 on a populated two-setting store. -/
theorem resetAll_getAll_defaults_witness :
    SettingStorage.getAll
      ⟨[("a", .num 1), ("b", .bool false)], "p_", "__initialized", false, true⟩
      (SettingStorage.resetAll
        ⟨[("a", .num 1), ("b", .bool false)], "p_", "__initialized", false, true⟩
        (Backend.empty.store "p_a" (.wf (.str "junk"))))
      = .ok [("a", .num 1), ("b", .bool false)] :=
  resetAll_getAll_defaults _ _ (by decide)

/-! ## Construction and init lemmas -/

theorem SettingStorage.getInit_eq (s : SettingStorage) (b : Backend) :
    s.getInit b =
      match b s.flagKey with
      | none => .ok (.null, s)
      | some d =>
        match jsonParse d with
        | .ok v => .ok (v, s)
        | .error e => .error e := by
  unfold SettingStorage.getInit SettingStorage.get SettingStorage.flagKey
  by_cases hg : s.globalInit
  · simp only [if_pos hg]
    cases b ("" ++ s.initSetting) with
    | none => rfl
    | some d => cases d <;> rfl
  · simp only [if_neg hg]
    cases b (s.pre ++ s.initSetting) with
    | none => rfl
    | some d => cases d <;> rfl

theorem SettingStorage.setInit_eq (s : SettingStorage) (b : Backend)
    (v : JSVal) :
    s.setInit b v = (s, b.store s.flagKey (jsonStringify v)) := by
  unfold SettingStorage.setInit SettingStorage.set SettingStorage.flagKey
  by_cases hg : s.globalInit
  · simp only [if_pos hg]
  · simp only [if_neg hg]

theorem SettingStorage.init_fst (s : SettingStorage) (b : Backend) :
    (s.init b).1 = s := by
  unfold SettingStorage.init
  by_cases hf : s.firstRun
  · simp only [hf, if_true, SettingStorage.setInit_eq]
  · simp only [hf, Bool.false_eq_true, if_false]

theorem SettingStorage.init_snd (s : SettingStorage) (b : Backend) :
    (s.init b).2 =
      if s.firstRun then
        (s.fillDefaults b).store s.flagKey (jsonStringify (.bool true))
      else s.fillDefaults b := by
  unfold SettingStorage.init
  by_cases hf : s.firstRun
  · simp only [hf, if_true, SettingStorage.setInit_eq]
  · simp only [hf, Bool.false_eq_true, if_false]

theorem SettingStorage.construct_eq (d : List (String × JSVal)) (o : SSOptions)
    (b : Backend) :
    SettingStorage.construct d o b =
      match (assembleStorage d o).getInit b with
      | .error e => .error e
      | .ok (v, s4) =>
          .ok (if v.truthy then s4 else { s4 with firstRun := true }) := rfl

theorem assembleStorage_fields (d : List (String × JSVal)) (o : SSOptions) :
    (assembleStorage d o).defaults = d ∧
    (assembleStorage d o).pre = o.pre.getD "" ∧
    (assembleStorage d o).initSetting = o.initSetting.getD "__initialized" ∧
    (assembleStorage d o).globalInit = o.globalInit.getD false ∧
    (assembleStorage d o).firstRun = false := by
  obtain ⟨op, oi, og⟩ := o
  cases op <;> cases oi <;> cases og <;> exact ⟨rfl, rfl, rfl, rfl, rfl⟩

theorem flagKey_congr {s t : SettingStorage} (hg : s.globalInit = t.globalInit)
    (hp : s.pre = t.pre) (hi : s.initSetting = t.initSetting) :
    s.flagKey = t.flagKey := by
  unfold SettingStorage.flagKey
  rw [hg, hp, hi]

theorem construct_cases (d : List (String × JSVal)) (o : SSOptions)
    (b : Backend) :
    SettingStorage.construct d o b =
      match b (assembleStorage d o).flagKey with
      | none => .ok { assembleStorage d o with firstRun := true }
      | some (.wf v) =>
          .ok (if v.truthy then assembleStorage d o
               else { assembleStorage d o with firstRun := true })
      | some (.malformed m) =>
          .error ("SyntaxError: unexpected token in JSON: " ++ m) := by
  rw [SettingStorage.construct_eq, SettingStorage.getInit_eq]
  cases b (assembleStorage d o).flagKey with
  | none => rfl
  | some dd => cases dd <;> rfl

theorem construct_ok_inv (d : List (String × JSVal)) (o : SSOptions)
    (b : Backend) (s : SettingStorage)
    (h : SettingStorage.construct d o b = .ok s) :
    s.defaults = d ∧ s.pre = o.pre.getD "" ∧
    s.initSetting = o.initSetting.getD "__initialized" ∧
    s.globalInit = o.globalInit.getD false ∧
    s.firstRun = storedFlagFalsy b s := by
  rw [construct_cases] at h
  obtain ⟨ha, hp, hi, hg, hf⟩ := assembleStorage_fields d o
  set a := assembleStorage d o with haa
  cases hb : b a.flagKey with
  | none =>
    rw [hb] at h
    have hs : s = { a with firstRun := true } := (Except.ok.inj h).symm
    subst hs
    refine ⟨ha, hp, hi, hg, ?_⟩
    have h1 : ({ a with firstRun := true } : SettingStorage).firstRun = true :=
      rfl
    have h2 : storedFlagFalsy b { a with firstRun := true }
        = storedFlagFalsy b a := rfl
    rw [h1, h2]
    unfold storedFlagFalsy
    rw [hb]
  | some dd =>
    rw [hb] at h
    cases dd with
    | malformed m => exact absurd h (by simp)
    | wf v =>
      have h2 : Except.ok (if v.truthy then a else { a with firstRun := true })
          = Except.ok s := h
      by_cases hv : v.truthy
      · rw [if_pos hv] at h2
        have hs : s = a := (Except.ok.inj h2).symm
        subst hs
        refine ⟨ha, hp, hi, hg, ?_⟩
        unfold storedFlagFalsy
        rw [hb, hf]
        show false = !v.truthy
        rw [hv]
        rfl
      · rw [if_neg hv] at h2
        have hs : s = { a with firstRun := true } := (Except.ok.inj h2).symm
        subst hs
        refine ⟨ha, hp, hi, hg, ?_⟩
        have h1 : ({ a with firstRun := true } : SettingStorage).firstRun = true :=
          rfl
        have h3 : storedFlagFalsy b { a with firstRun := true }
            = storedFlagFalsy b a := rfl
        rw [h1, h3]
        unfold storedFlagFalsy
        rw [hb]
        simp only [Bool.not_eq_true] at hv
        show true = !v.truthy
        rw [hv]
        rfl

theorem construct_ok_of_flag_wf (d : List (String × JSVal)) (o : SSOptions)
    (b : Backend) (v : JSVal)
    (hb : b (assembleStorage d o).flagKey = some (.wf v)) :
    SettingStorage.construct d o b =
      .ok (if v.truthy then assembleStorage d o
           else { assembleStorage d o with firstRun := true }) := by
  rw [construct_cases, hb]

theorem construct_flag_absent (d : List (String × JSVal)) (o : SSOptions)
    (b : Backend) (hb : b (assembleStorage d o).flagKey = none) :
    SettingStorage.construct d o b =
      .ok { assembleStorage d o with firstRun := true } := by
  rw [construct_cases, hb]

/-! ## C4 -/

/-- Counterexample to C4 as stated: a backend holding serialized `false` at
the init-flag key — the key is *present*, yet the constructed instance has
`firstRun = true`, because the source tests `!getInit()` (falsiness), not
key absence. -/
theorem firstRun_present_falsy_flag_cex :
    ((fun k => if k = "__initialized" then some (StoredData.wf (.bool false))
               else none : Backend) "__initialized").isSome = true ∧
    (SettingStorage.construct [] {}
        (fun k => if k = "__initialized" then some (StoredData.wf (.bool false))
                  else none)).map SettingStorage.firstRun = .ok true := by
  exact ⟨rfl, rfl⟩

/-- C4 (amended): `firstRun` is computed exactly once, at construction —
true iff the init flag read from the backend was absent *or deserialized to a
falsy value* at that moment — and is read-only thereafter: `init()`, the only
operation that touches instance state (it writes the init flag to the
backend), returns the instance unchanged, so the observed `firstRun` never
changes.  (The remaining operations return only a backend and cannot touch
the instance.) -/
theorem firstRun_computed_at_construction (d : List (String × JSVal))
    (o : SSOptions) (b : Backend) (s : SettingStorage)
    (h : SettingStorage.construct d o b = .ok s) :
    s.firstRun = storedFlagFalsy b s ∧
    ∀ b2 : Backend, (s.init b2).1 = s :=
  ⟨(construct_ok_inv d o b s h).2.2.2.2, fun b2 => s.init_fst b2⟩

/-- Witness for C4 (amended): a present falsy flag yields `firstRun = true`,
and `init()` leaves the instance — hence `firstRun` — unchanged. -/
theorem firstRun_computed_at_construction_witness :
    SettingStorage.firstRun
      ⟨[], "", "__initialized", false, true⟩
      = storedFlagFalsy
          (fun k => if k = "__initialized" then some (StoredData.wf (.bool false))
                    else none)
          ⟨[], "", "__initialized", false, true⟩ ∧
    (SettingStorage.init ⟨[], "", "__initialized", false, true⟩
        Backend.empty).1 = ⟨[], "", "__initialized", false, true⟩ := by
  have h := firstRun_computed_at_construction [] {}
    (fun k => if k = "__initialized" then some (StoredData.wf (.bool false))
              else none)
    ⟨[], "", "__initialized", false, true⟩ rfl
  exact ⟨h.1, h.2 Backend.empty⟩

/-! ## C1 -/

/-- Counterexample to C1 as stated: declaring a setting whose key coincides
with the init-flag key (`"__initialized"` under an empty prefix).  After
`init()` on an empty backend, `get` on that name returns the init flag
(`true`) written by `init()` after the default — not the declared default
`5`. -/
theorem init_default_shadowed_by_flag_cex :
    (SettingStorage.construct [("__initialized", JSVal.num 5)] {}
        Backend.empty).map
      (fun s => (s.firstRun, s.get (s.init Backend.empty).2 "__initialized"))
      = .ok (true, .ok (.bool true)) ∧
    JSVal.bool true ≠ JSVal.num 5 := by
  refine ⟨rfl, fun hcontra => ?_⟩
  cases hcontra

/-- C1 (amended): for declared (name, default) pairs with distinct names (a
spec invariant) none of whose keys coincides with the init-flag key, an
instance constructed over an empty backend has `firstRun = true`; after
`init()`, `get(name)` returns the declared default for every pair; and a
second instance constructed over the now-populated backend with the same
options has `firstRun = false`. -/
theorem init_fills_defaults_and_flags_firstRun (d : List (String × JSVal))
    (o : SSOptions) (s : SettingStorage)
    (h : SettingStorage.construct d o Backend.empty = .ok s)
    (hnd : (d.map Prod.fst).Nodup)
    (hkey : ∀ p ∈ d, s.pre ++ p.1 ≠ s.flagKey) :
    s.firstRun = true ∧
    (∀ p ∈ d, s.get (s.init Backend.empty).2 p.1 = .ok p.2) ∧
    ∃ s2, SettingStorage.construct d o (s.init Backend.empty).2 = .ok s2 ∧
      s2.firstRun = false := by
  obtain ⟨hd, hp, hi, hg, hf⟩ := construct_ok_inv d o Backend.empty s h
  have hfr : s.firstRun = true := by
    rw [hf]
    rfl
  have hinit2 : (s.init Backend.empty).2
      = (s.fillDefaults Backend.empty).store s.flagKey
          (jsonStringify (.bool true)) := by
    rw [SettingStorage.init_snd, hfr]
    rfl
  refine ⟨hfr, ?_, ?_⟩
  · intro p hpd
    rw [hinit2]
    unfold SettingStorage.get
    rw [Backend.store_ne _ _ _ (hkey p hpd)]
    have hfill := fillDefaultsLoop_fills s s.defaults Backend.empty p
      (by rw [hd]; exact hnd) (by rw [hd]; exact hpd) rfl
    unfold SettingStorage.fillDefaults
    rw [hfill]
    rfl
  · have hak : (assembleStorage d o).flagKey = s.flagKey := by
      obtain ⟨_, hp2, hi2, hg2, _⟩ := assembleStorage_fields d o
      exact flagKey_congr (by rw [hg2, hg]) (by rw [hp2, hp]) (by rw [hi2, hi])
    have hb2 : (s.init Backend.empty).2 (assembleStorage d o).flagKey
        = some (.wf (.bool true)) := by
      rw [hinit2, hak]
      exact Backend.store_self _ _ _
    refine ⟨assembleStorage d o, ?_, ?_⟩
    · have := construct_ok_of_flag_wf d o (s.init Backend.empty).2
        (.bool true) hb2
      rw [this]
      rfl
    · exact (assembleStorage_fields d o).2.2.2.2

/-- Witness for C1 (amended) on a one-setting store: construction over the
empty backend sees `firstRun = true`, after `init()` the default is
readable, and a second construction sees `firstRun = false`. -/
theorem init_fills_defaults_witness :
    SettingStorage.firstRun
      ⟨[("checkbox", JSVal.bool true)], "", "__initialized", false, true⟩
      = true ∧
    SettingStorage.get
      ⟨[("checkbox", JSVal.bool true)], "", "__initialized", false, true⟩
      (SettingStorage.init
        ⟨[("checkbox", JSVal.bool true)], "", "__initialized", false, true⟩
        Backend.empty).2 "checkbox" = .ok (.bool true) ∧
    ∃ s2, SettingStorage.construct [("checkbox", JSVal.bool true)] {}
        (SettingStorage.init
          ⟨[("checkbox", JSVal.bool true)], "", "__initialized", false, true⟩
          Backend.empty).2 = .ok s2 ∧
      s2.firstRun = false := by
  have h := init_fills_defaults_and_flags_firstRun
    [("checkbox", JSVal.bool true)] {}
    ⟨[("checkbox", JSVal.bool true)], "", "__initialized", false, true⟩
    rfl (by decide) (by decide)
  exact ⟨h.1, h.2.1 _ (List.mem_cons_self _ _), h.2.2⟩

/-! ## Numeric coercion lemmas (options_page.js) -/

namespace OptionsPage

theorem strToNum_ne_empty {t : String} {m : Int} (h : strToNum t = .int m) :
    t ≠ "" := by
  intro hcontra
  rw [hcontra] at h
  have h2 : JSNum.nan = JSNum.int m := h
  exact JSNum.noConfusion h2

theorem primToNumber_str_int {t : String} {m : Int} (hN : strToNum t = .int m)
    (hT : jsTrim t = t) : primToNumber (.str t) = .int m := by
  show (if jsTrim t = "" then JSNum.int 0 else strToNum (jsTrim t)) = .int m
  rw [hT, if_neg (strToNum_ne_empty hN), hN]

theorem coerce_arg_self (e : Element) :
    coerceToLimits e (some e.valueAsNumber) = coerceToLimits e none := by
  unfold coerceToLimits
  simp only [ite_self]

theorem coerceToLimits_clamps (e : Element) (lo hi n : Int)
    (hminN : strToNum e.min = .int lo) (hminT : jsTrim e.min = e.min)
    (hmaxN : strToNum e.max = .int hi) (hmaxT : jsTrim e.max = e.max)
    (hlohi : lo ≤ hi) (hval : e.valueAsNumber = .int n) :
    coerceToLimits e none =
      (if n < lo then (.str e.min, e.setValue (.str e.min))
       else if n > hi then (.str e.max, e.setValue (.str e.max))
       else (.num n, e)) := by
  have hmne : (e.min != "") = true := by
    simp only [bne_iff_ne, ne_eq, decide_not]
    simp [strToNum_ne_empty hminN]
  have hxne : (e.max != "") = true := by
    simp only [bne_iff_ne, ne_eq, decide_not]
    simp [strToNum_ne_empty hmaxN]
  have hpm : primToNumber (.str e.min) = .int lo :=
    primToNumber_str_int hminN hminT
  have hpx : primToNumber (.str e.max) = .int hi :=
    primToNumber_str_int hmaxN hmaxT
  by_cases h1 : n < lo
  · have hgt : ¬ lo > hi := by omega
    rw [if_pos h1]
    unfold coerceToLimits
    simp only [hval, hmne, hxne, parseFloat, hminN, hmaxN, CoerceVal.toNum,
      JSNum.ltNum, JSNum.gtNum, JSNum.isNaN, Bool.true_and,
      decide_eq_true_eq, h1, if_true, hpm, hgt, Bool.false_eq_true, if_false,
      CoerceVal.toVal]
  · rw [if_neg h1]
    by_cases h2 : n > hi
    · rw [if_pos h2]
      unfold coerceToLimits
      simp only [hval, hmne, hxne, parseFloat, hminN, hmaxN, CoerceVal.toNum,
        JSNum.ltNum, JSNum.gtNum, JSNum.isNaN, Bool.true_and,
        decide_eq_true_eq, h1, h2, if_true, hpx, Bool.false_eq_true, if_false,
        CoerceVal.toVal]
    · rw [if_neg h2]
      unfold coerceToLimits
      simp only [hval, hmne, hxne, parseFloat, hminN, hmaxN, CoerceVal.toNum,
        JSNum.ltNum, JSNum.gtNum, JSNum.isNaN, Bool.true_and,
        decide_eq_true_eq, h1, h2, Bool.false_eq_true, if_false,
        CoerceVal.toVal]

theorem coerceToLimits_nan (e : Element) (lo hi : Int)
    (hminN : strToNum e.min = .int lo) (hmaxN : strToNum e.max = .int hi)
    (hval : e.valueAsNumber = .nan) :
    coerceToLimits e none = (.num 0, e.setValue (.num 0)) := by
  unfold coerceToLimits
  simp only [hval, parseFloat, hminN, hmaxN, CoerceVal.toNum, JSNum.ltNum,
    JSNum.gtNum, JSNum.isNaN, Bool.and_false, Bool.false_eq_true, if_false,
    if_true, CoerceVal.toVal]

end OptionsPage

namespace OptionsPage

theorem isCheckableType_numeric {t : String}
    (ht : t = "number" ∨ t = "range") :
    isCheckableType (toLowerCase t) = false := by
  rcases ht with h | h <;> rw [h] <;> decide

theorem isNumericType_numeric {t : String}
    (ht : t = "number" ∨ t = "range") :
    isNumericType (toLowerCase t) = true := by
  rcases ht with h | h <;> rw [h] <;> decide

theorem applyFilter_none (w : Window) (v : JSVal) :
    applyFilter (getTransformFunction w none) v = .ok v := rfl

/-- `elementChanged` on a numeric element whose display value already lies in
its declared `[lo, hi]` bounds and which declares no save transform: the
value is persisted unchanged under the element's name. -/
theorem elementChanged_numeric (w : Window) (s : SettingStorage) (b : Backend)
    (e : Element) (lo hi m : Int)
    (ht : e.etype = "number" ∨ e.etype = "range")
    (hminN : strToNum e.min = .int lo) (hminT : jsTrim e.min = e.min)
    (hmaxN : strToNum e.max = .int hi) (hmaxT : jsTrim e.max = e.max)
    (hlohi : lo ≤ hi) (hsave : e.savefunc = none)
    (hval : e.valueAsNumber = .int m) (hlom : lo ≤ m) (hmhi : m ≤ hi) :
    elementChanged w s b e = .ok (s.set b e.name (.num m), e) := by
  have hco : coerceToLimits e (some e.valueAsNumber) = ((.num m : JSVal), e) := by
    rw [coerce_arg_self,
      coerceToLimits_clamps e lo hi m hminN hminT hmaxN hmaxT hlohi hval,
      if_neg (by omega), if_neg (by omega)]
  unfold elementChanged
  simp only [isCheckableType_numeric ht, isNumericType_numeric ht,
    Bool.false_eq_true, if_false, if_true, hco, hsave]
  rfl

end OptionsPage

/-! ## C8 -/

/-- C8: applying `update` to a bound numeric-range element (`number` or
`range`) with declared integer-literal `min`/`max` bounds (`lo ≤ hi`) and no
transforms: a stored numeric value `n` is displayed clamped into
`[lo, hi]`; when the clamp changes the value, the clamped value is persisted
back through `elementChanged` — the same path as a user change event —
otherwise storage is untouched.  A stored `null` (whose display parses as
not-a-number) is coerced to 0 and, when `0 ∈ [lo, hi]`, persisted as 0. -/
theorem update_numeric_clamps_and_persists (w : Window) (s : SettingStorage)
    (b : Backend) (e : Element) (lo hi : Int)
    (ht : e.etype = "number" ∨ e.etype = "range")
    (hminN : strToNum e.min = .int lo) (hminT : jsTrim e.min = e.min)
    (hmaxN : strToNum e.max = .int hi) (hmaxT : jsTrim e.max = e.max)
    (hlohi : lo ≤ hi)
    (hload : e.loadfunc = none) (hsave : e.savefunc = none) :
    (∀ n : Int, b (s.pre ++ e.name) = some (.wf (.num n)) →
      ∃ e' : Element,
        OptionsPage.updateElement w s b e =
          .ok (if clampInt lo hi n = n then b
               else s.set b e.name (.num (clampInt lo hi n)), e') ∧
        e'.valueAsNumber = .int (clampInt lo hi n) ∧
        lo ≤ clampInt lo hi n ∧ clampInt lo hi n ≤ hi ∧
        OptionsPage.elementChanged w s b e' =
          .ok (s.set b e.name (.num (clampInt lo hi n)), e')) ∧
    (b (s.pre ++ e.name) = some (.wf .null) → lo ≤ 0 → 0 ≤ hi →
      ∃ e' : Element,
        OptionsPage.updateElement w s b e = .ok (s.set b e.name (.num 0), e') ∧
        e'.valueAsNumber = .int 0 ∧
        OptionsPage.elementChanged w s b e' =
          .ok (s.set b e.name (.num 0), e')) := by
  constructor
  · intro n hst
    have hget : s.get b e.name = .ok (.num n) := by
      unfold SettingStorage.get
      rw [hst]
      rfl
    have hfl : OptionsPage.applyFilter
        (OptionsPage.getTransformFunction w e.loadfunc) (.num n)
        = .ok (.num n) := by
      rw [hload]
      exact OptionsPage.applyFilter_none w _
    have hco := OptionsPage.coerceToLimits_clamps (e.setValue (.num n))
      lo hi n hminN hminT hmaxN hmaxT hlohi rfl
    by_cases h1 : n < lo
    · have hcl : clampInt lo hi n = lo := by
        unfold clampInt
        rw [if_pos h1]
      rw [if_pos h1] at hco
      have hne : looseEq (.str (e.setValue (.num n)).min) (.num n) = false := by
        show JSNum.numEq (primToNumber (.str e.min)) (primToNumber (.num n))
          = false
        rw [OptionsPage.primToNumber_str_int hminN hminT]
        show (lo == n) = false
        rw [beq_eq_false_iff_ne]
        omega
      have hec := OptionsPage.elementChanged_numeric w s b
        ((e.setValue (.num n)).setValue (.str e.min)) lo hi lo ht
        hminN hminT hmaxN hmaxT hlohi hsave hminN (le_refl lo) hlohi
      refine ⟨(e.setValue (.num n)).setValue (.str e.min), ?_,
        by rw [hcl]; exact hminN, by omega, by omega, by rw [hcl]; exact hec⟩
      unfold OptionsPage.updateElement
      simp only [hget, hfl, OptionsPage.isCheckableType_numeric ht,
        OptionsPage.isNumericType_numeric ht, Bool.false_eq_true, if_false,
        if_true, hco, hne, hcl]
      rw [if_neg (by omega : ¬ lo = n)]
      exact hec
    · by_cases h2 : n > hi
      · have hcl : clampInt lo hi n = hi := by
          unfold clampInt
          rw [if_neg h1, if_pos h2]
        rw [if_neg h1, if_pos h2] at hco
        have hne : looseEq (.str (e.setValue (.num n)).max) (.num n)
            = false := by
          show JSNum.numEq (primToNumber (.str e.max)) (primToNumber (.num n))
            = false
          rw [OptionsPage.primToNumber_str_int hmaxN hmaxT]
          show (hi == n) = false
          rw [beq_eq_false_iff_ne]
          omega
        have hec := OptionsPage.elementChanged_numeric w s b
          ((e.setValue (.num n)).setValue (.str e.max)) lo hi hi ht
          hminN hminT hmaxN hmaxT hlohi hsave hmaxN hlohi (le_refl hi)
        refine ⟨(e.setValue (.num n)).setValue (.str e.max), ?_,
          by rw [hcl]; exact hmaxN, by omega, by omega, by rw [hcl]; exact hec⟩
        unfold OptionsPage.updateElement
        simp only [hget, hfl, OptionsPage.isCheckableType_numeric ht,
          OptionsPage.isNumericType_numeric ht, Bool.false_eq_true, if_false,
          if_true, hco, hne, hcl]
        rw [if_neg (by omega : ¬ hi = n)]
        exact hec
      · have hcl : clampInt lo hi n = n := by
          unfold clampInt
          rw [if_neg h1, if_neg h2]
        rw [if_neg h1, if_neg h2] at hco
        have heq : looseEq (.num n) (.num n) = true := by
          show JSNum.numEq (primToNumber (.num n)) (primToNumber (.num n))
            = true
          show (n == n) = true
          exact beq_self_eq_true n
        have hec := OptionsPage.elementChanged_numeric w s b
          (e.setValue (.num n)) lo hi n ht
          hminN hminT hmaxN hmaxT hlohi hsave rfl (by omega) (by omega)
        refine ⟨e.setValue (.num n), ?_, by rw [hcl]; rfl, by omega, by omega,
          by rw [hcl]; exact hec⟩
        unfold OptionsPage.updateElement
        simp only [hget, hfl, OptionsPage.isCheckableType_numeric ht,
          OptionsPage.isNumericType_numeric ht, Bool.false_eq_true, if_false,
          if_true, hco, heq, hcl]
  · intro hst hlo0 h0hi
    have hget : s.get b e.name = .ok .null := by
      unfold SettingStorage.get
      rw [hst]
      rfl
    have hfl : OptionsPage.applyFilter
        (OptionsPage.getTransformFunction w e.loadfunc) .null
        = .ok .null := by
      rw [hload]
      exact OptionsPage.applyFilter_none w _
    have hco := OptionsPage.coerceToLimits_nan (e.setValue .null) lo hi
      hminN hmaxN rfl
    have hne : looseEq (.num 0) .null = false := rfl
    have hec := OptionsPage.elementChanged_numeric w s b
      ((e.setValue .null).setValue (.num 0)) lo hi 0 ht
      hminN hminT hmaxN hmaxT hlohi hsave rfl hlo0 h0hi
    refine ⟨(e.setValue .null).setValue (.num 0), ?_, rfl, hec⟩
    unfold OptionsPage.updateElement
    simp only [hget, hfl, OptionsPage.isCheckableType_numeric ht,
      OptionsPage.isNumericType_numeric ht, Bool.false_eq_true, if_false,
      if_true, hco, hne]
    exact hec

/-- Witness for C8 at the spec's own example: `min="0"`, `max="10"`, stored
value 15 — the displayed value becomes 10 and 10 is persisted. -/
theorem update_numeric_clamps_and_persists_witness :
    ∃ e' : Element,
      OptionsPage.updateElement (fun _ => GlobalRef.undef)
          ⟨[], "", "__initialized", false, false⟩
          (Backend.empty.store "numeric" (.wf (.num 15)))
          ⟨"numeric", "number", .str "", false, "0", "10", none, none, []⟩
        = .ok
          (if clampInt 0 10 15 = 15 then
              Backend.empty.store "numeric" (.wf (.num 15))
           else
              SettingStorage.set ⟨[], "", "__initialized", false, false⟩
                (Backend.empty.store "numeric" (.wf (.num 15))) "numeric"
                (.num (clampInt 0 10 15)), e') ∧
      e'.valueAsNumber = .int (clampInt 0 10 15) ∧
      (0 : Int) ≤ clampInt 0 10 15 ∧ clampInt 0 10 15 ≤ 10 ∧
      OptionsPage.elementChanged (fun _ => GlobalRef.undef)
          ⟨[], "", "__initialized", false, false⟩
          (Backend.empty.store "numeric" (.wf (.num 15))) e'
        = .ok
          (SettingStorage.set ⟨[], "", "__initialized", false, false⟩
            (Backend.empty.store "numeric" (.wf (.num 15))) "numeric"
            (.num (clampInt 0 10 15)), e') :=
  (update_numeric_clamps_and_persists (fun _ => GlobalRef.undef)
      ⟨[], "", "__initialized", false, false⟩
      (Backend.empty.store "numeric" (.wf (.num 15)))
      ⟨"numeric", "number", .str "", false, "0", "10", none, none, []⟩
      0 10 (Or.inl rfl) (by decide) (by decide) (by decide) (by decide)
      (by decide) rfl rfl).1 15 rfl

/-! ## C9 -/

/-- Counterexample to C9 as stated: a `data-loadfunc` attribute naming a
global that resolves to a *truthy non-callable* value (the number 5).  The
`if (filter)` guard passes, `filter(value)` is invoked, and a `TypeError`
is raised — the value does not pass through and an error does propagate. -/
theorem transform_truthy_noncallable_cex :
    OptionsPage.updateElement
      (fun nm => if nm = "double" then .val (.num 5) else .undef)
      ⟨[], "", "__initialized", false, false⟩
      (Backend.empty.store "t" (.wf (.str "x")))
      ⟨"t", "text", .str "", false, "", "", some "double", none, []⟩
      = .error "TypeError: filter is not a function" := rfl

namespace OptionsPage

theorem applyFilter_falsy (w : Window) (a : Option String)
    (h : ∀ f, a = some f → (w f).truthy = false) (v : JSVal) :
    applyFilter (getTransformFunction w a) v = .ok v := by
  cases a with
  | none => rfl
  | some f =>
    unfold applyFilter getTransformFunction
    rw [h f rfl]
    simp

theorem coerceToLimits_transforms (nm ty : String) (v : JSVal) (ck : Bool)
    (mn mx : String) (lf sv : Option String) (rg : List (String × Bool))
    (arg : Option JSNum) :
    coerceToLimits ⟨nm, ty, v, ck, mn, mx, lf, sv, rg⟩ arg =
      ((coerceToLimits ⟨nm, ty, v, ck, mn, mx, none, none, rg⟩ arg).1,
       { (coerceToLimits ⟨nm, ty, v, ck, mn, mx, none, none, rg⟩ arg).2 with
           loadfunc := lf, savefunc := sv }) := by
  unfold coerceToLimits Element.setValue Element.valueAsNumber
  cases arg with
  | none =>
    dsimp only
    split_ifs <;> rfl
  | some x =>
    dsimp only
    split_ifs <;> rfl

end OptionsPage

namespace OptionsPage

theorem elementChanged_transforms (w : Window) (s : SettingStorage)
    (b : Backend) (nm ty : String) (v : JSVal) (ck : Bool) (mn mx : String)
    (lf sv : Option String) (rg : List (String × Bool))
    (hs : ∀ f, sv = some f → (w f).truthy = false) :
    elementChanged w s b ⟨nm, ty, v, ck, mn, mx, lf, sv, rg⟩ =
      (elementChanged w s b ⟨nm, ty, v, ck, mn, mx, none, none, rg⟩).map
        (fun p => (p.1, { p.2 with loadfunc := lf, savefunc := sv })) := by
  unfold elementChanged
  dsimp only
  simp only [applyFilter_falsy w sv hs, applyFilter_none]
  by_cases hc : isCheckableType (toLowerCase ty) = true
  · simp only [hc, if_true, Except.map, getRadioValue]
  · simp only [hc, Bool.false_eq_true, if_false]
    by_cases hn : isNumericType (toLowerCase ty) = true
    · simp only [hn, if_true, Element.valueAsNumber]
      rw [coerceToLimits_transforms]
      simp only [Except.map]
    · simp only [hn, Bool.false_eq_true, if_false, Except.map]

end OptionsPage

namespace OptionsPage

theorem coerceToLimits_snd_shape (nm ty : String) (v : JSVal) (ck : Bool)
    (mn mx : String) (rg : List (String × Bool)) (arg : Option JSNum) :
    (coerceToLimits ⟨nm, ty, v, ck, mn, mx, none, none, rg⟩ arg).2 =
      ⟨nm, ty,
       (coerceToLimits ⟨nm, ty, v, ck, mn, mx, none, none, rg⟩ arg).2.val,
       ck, mn, mx, none, none, rg⟩ := by
  unfold coerceToLimits Element.setValue Element.valueAsNumber
  cases arg <;> (dsimp only; split_ifs <;> rfl)

theorem updateElement_transforms (w : Window) (s : SettingStorage)
    (b : Backend) (nm ty : String) (v : JSVal) (ck : Bool) (mn mx : String)
    (lf sv : Option String) (rg : List (String × Bool))
    (hl : ∀ f, lf = some f → (w f).truthy = false)
    (hs : ∀ f, sv = some f → (w f).truthy = false) :
    updateElement w s b ⟨nm, ty, v, ck, mn, mx, lf, sv, rg⟩ =
      (updateElement w s b ⟨nm, ty, v, ck, mn, mx, none, none, rg⟩).map
        (fun p => (p.1, { p.2 with loadfunc := lf, savefunc := sv })) := by
  unfold updateElement SettingStorage.get
  dsimp only
  simp only [applyFilter_falsy w lf hl, applyFilter_none]
  have htail : ∀ x : JSVal,
      (if isCheckableType (toLowerCase ty) = true then
        if isRadioType (toLowerCase ty) = true then
          Except.ok (b, (⟨nm, ty, v, looseEq (.str (jsToString v)) x,
            mn, mx, lf, sv, rg⟩ : Element))
        else
          Except.ok (b, (⟨nm, ty, v, x.truthy, mn, mx, lf, sv, rg⟩ : Element))
      else
        if isNumericType (toLowerCase ty) = true then
          if looseEq (coerceToLimits ⟨nm, ty, x, ck, mn, mx, lf, sv, rg⟩ none).1 x
              = true then
            Except.ok (b, (coerceToLimits ⟨nm, ty, x, ck, mn, mx, lf, sv, rg⟩ none).2)
          else
            elementChanged w s b
              (coerceToLimits ⟨nm, ty, x, ck, mn, mx, lf, sv, rg⟩ none).2
        else Except.ok (b, (⟨nm, ty, x, ck, mn, mx, lf, sv, rg⟩ : Element))) =
      ((if isCheckableType (toLowerCase ty) = true then
        if isRadioType (toLowerCase ty) = true then
          Except.ok (b, (⟨nm, ty, v, looseEq (.str (jsToString v)) x,
            mn, mx, none, none, rg⟩ : Element))
        else
          Except.ok (b, (⟨nm, ty, v, x.truthy, mn, mx, none, none, rg⟩ : Element))
      else
        if isNumericType (toLowerCase ty) = true then
          if looseEq (coerceToLimits ⟨nm, ty, x, ck, mn, mx, none, none, rg⟩ none).1 x
              = true then
            Except.ok (b, (coerceToLimits ⟨nm, ty, x, ck, mn, mx, none, none, rg⟩ none).2)
          else
            elementChanged w s b
              (coerceToLimits ⟨nm, ty, x, ck, mn, mx, none, none, rg⟩ none).2
        else Except.ok (b, (⟨nm, ty, x, ck, mn, mx, none, none, rg⟩ : Element))).map
        (fun p => (p.1, { p.2 with loadfunc := lf, savefunc := sv }))) := by
    intro x
    by_cases hc : isCheckableType (toLowerCase ty) = true
    · by_cases hr : isRadioType (toLowerCase ty) = true
      · simp only [hc, hr, if_true, Except.map]
      · simp only [hc, hr, if_true, Bool.false_eq_true, if_false, Except.map]
    · simp only [hc, Bool.false_eq_true, if_false]
      by_cases hn : isNumericType (toLowerCase ty) = true
      · simp only [hn, if_true]
        rw [coerceToLimits_transforms]
        dsimp only
        by_cases hg :
            looseEq (coerceToLimits ⟨nm, ty, x, ck, mn, mx, none, none, rg⟩ none).1 x
              = true
        · simp only [hg, if_true, Except.map]
        · simp only [hg, Bool.false_eq_true, if_false]
          rw [coerceToLimits_snd_shape]
          dsimp only
          rw [elementChanged_transforms w s b nm ty _ ck mn mx lf sv rg hs]
      · simp only [hn, Bool.false_eq_true, if_false, Except.map]
  cases b (s.pre ++ nm) with
  | none => exact htail .null
  | some dd =>
    cases dd with
    | wf u => exact htail u
    | malformed m => rfl

end OptionsPage

/-- C9 (amended): a `data-loadfunc`/`data-savefunc` reference that resolves
to a *falsy* value (`undefined` — an unknown global — or another falsy
value) is treated as "no transform": `updateElement` and `elementChanged`
behave exactly as on the element with no transform attributes declared (the
untouched attributes apart), so the value passes through unchanged and no
error is raised.  A *truthy non-callable* resolution, by contrast, raises a
`TypeError` (see the counterexample). -/
theorem transform_falsy_is_noop (w : Window) (s : SettingStorage)
    (b : Backend) (e : Element)
    (hl : ∀ f, e.loadfunc = some f → (w f).truthy = false)
    (hs : ∀ f, e.savefunc = some f → (w f).truthy = false) :
    OptionsPage.updateElement w s b e =
      (OptionsPage.updateElement w s b
          { e with loadfunc := none, savefunc := none }).map
        (restoreTransforms e) ∧
    OptionsPage.elementChanged w s b e =
      (OptionsPage.elementChanged w s b
          { e with loadfunc := none, savefunc := none }).map
        (restoreTransforms e) := by
  obtain ⟨nm, ty, v, ck, mn, mx, lf, sv, rg⟩ := e
  exact ⟨OptionsPage.updateElement_transforms w s b nm ty v ck mn mx lf sv rg
      hl hs,
    OptionsPage.elementChanged_transforms w s b nm ty v ck mn mx lf sv rg hs⟩

/-- Witness for C9 (amended): a `data-loadfunc` naming an unknown global
(resolving to `undefined`) makes `updateElement` behave exactly like the
no-transform run. -/
theorem transform_falsy_is_noop_witness :
    OptionsPage.updateElement (fun _ => GlobalRef.undef)
        ⟨[], "", "__initialized", false, false⟩
        (Backend.empty.store "t" (.wf (.str "x")))
        ⟨"t", "text", .str "", false, "", "", some "gone", none, []⟩ =
      (OptionsPage.updateElement (fun _ => GlobalRef.undef)
          ⟨[], "", "__initialized", false, false⟩
          (Backend.empty.store "t" (.wf (.str "x")))
          ⟨"t", "text", .str "", false, "", "", none, none, []⟩).map
        (restoreTransforms
          ⟨"t", "text", .str "", false, "", "", some "gone", none, []⟩) ∧
    OptionsPage.elementChanged (fun _ => GlobalRef.undef)
        ⟨[], "", "__initialized", false, false⟩
        (Backend.empty.store "t" (.wf (.str "x")))
        ⟨"t", "text", .str "", false, "", "", some "gone", none, []⟩ =
      (OptionsPage.elementChanged (fun _ => GlobalRef.undef)
          ⟨[], "", "__initialized", false, false⟩
          (Backend.empty.store "t" (.wf (.str "x")))
          ⟨"t", "text", .str "", false, "", "", none, none, []⟩).map
        (restoreTransforms
          ⟨"t", "text", .str "", false, "", "", some "gone", none, []⟩) :=
  transform_falsy_is_noop (fun _ => GlobalRef.undef)
    ⟨[], "", "__initialized", false, false⟩
    (Backend.empty.store "t" (.wf (.str "x")))
    ⟨"t", "text", .str "", false, "", "", some "gone", none, []⟩
    (fun _ _ => rfl) (fun _ h => Option.noConfusion h)
